import Mathlib

/-!
Verification of the `spark` function runner and `crank xpkg update` commands.

This development shallowly embeds two commands of the crossplane repository:

* `cmd/xfn/spark/spark.go` — `Command.Run`, which reads a protobuf-serialized
  `RunFunctionRequest` from stdin, selects an OCI bundler strategy, pulls an
  image, bundles it, executes it via an external OCI runtime under a deadline,
  cleans up the bundle, and writes a `RunFunctionResponse` to stdout.
* `cmd/crank/xpkg/update.go` — the `updateConfigCmd.Run`,
  `updateProviderCmd.Run` and `updateFunctionCmd.Run` commands, which patch a
  stored package object's `Spec.Package` field.

Effectful steps (stdin, registry, filesystem, the child process) are modelled
by an environment record of step outcomes; `Command.Run`'s control flow is
translated statement by statement into a pure function over that environment
which also records a trace of observable events.
-/

namespace Envelope

/-!
Request/Response envelope (protobuf wire encoding).

Modelled from the spec: the binary Request/Response envelope exchanged over
stdin/stdout. The generated message types
(`apis/apiextensions/fn/proto/v1alpha1`) and the protobuf runtime
(`proto.Marshal`/`proto.Unmarshal`) are not among the sources examined here,
so the envelope is modelled from the spec's schema: a Request carries an
image reference string, an opaque pull configuration, opaque input payload
bytes and an optional timeout; a Response carries opaque output payload
bytes. Fields are length-delimited with base-128 varints, as on the protobuf
wire; strings are represented by their byte sequences.
-/

/-- A protobuf base-128 varint: little-endian groups of 7 bits, high bit set
on every byte except the last. -/
def varint (n : Nat) : List Nat :=
  if h : n < 128 then [n] else (128 + n % 128) :: varint (n / 128)
  decreasing_by
    have h0 : 0 < n := by omega
    exact Nat.div_lt_self h0 (by norm_num)

/-- Decode one varint from the head of a byte list, returning the value and
the remaining bytes. -/
def decodeVarint : List Nat → Option (Nat × List Nat)
  | [] => none
  | b :: rest =>
    if b < 128 then some (b, rest)
    else
      match decodeVarint rest with
      | some (m, r) => some ((b - 128) + 128 * m, r)
      | none => none

theorem decodeVarint_varint (n : Nat) (rest : List Nat) :
    decodeVarint (varint n ++ rest) = some (n, rest) := by
  induction n using Nat.strong_induction_on generalizing rest with
  | _ n ih =>
    rw [varint]
    by_cases h : n < 128
    · simp [h, decodeVarint]
    · have h0 : 0 < n := by omega
      have hlt : n / 128 < n := Nat.div_lt_self h0 (by norm_num)
      simp only [h, dite_false, List.cons_append, decodeVarint]
      have hb : ¬ (128 + n % 128 < 128) := by omega
      simp only [hb, if_false, ih (n / 128) hlt rest]
      congr 1
      congr 1
      omega

/-- A length-delimited byte field: varint length followed by the bytes. -/
def encBytes (bs : List Nat) : List Nat := varint bs.length ++ bs

/-- Decode a length-delimited byte field. -/
def decBytes (l : List Nat) : Option (List Nat × List Nat) :=
  match decodeVarint l with
  | some (n, r) => if n ≤ r.length then some (r.take n, r.drop n) else none
  | none => none

theorem decBytes_encBytes (bs rest : List Nat) :
    decBytes (encBytes bs ++ rest) = some (bs, rest) := by
  simp only [encBytes, List.append_assoc, decBytes, decodeVarint_varint]
  have hle : bs.length ≤ (bs ++ rest).length := by simp
  simp [hle, List.take_left, List.drop_left]

/-- An optional duration field: a presence tag (0 = absent, 1 = present)
followed, when present, by the duration value. -/
def encOptNat : Option Nat → List Nat
  | none => varint 0
  | some t => varint 1 ++ varint t

/-- Decode an optional duration field. -/
def decOptNat (l : List Nat) : Option (Option Nat × List Nat) :=
  match decodeVarint l with
  | some (0, r) => some (none, r)
  | some (1, r) =>
    match decodeVarint r with
    | some (t, r2) => some (some t, r2)
    | none => none
  | some (_, _) => none
  | none => none

theorem decOptNat_encOptNat (o : Option Nat) (rest : List Nat) :
    decOptNat (encOptNat o ++ rest) = some (o, rest) := by
  cases o with
  | none => simp [encOptNat, decOptNat, decodeVarint_varint]
  | some t =>
    simp [encOptNat, List.append_assoc, decOptNat, decodeVarint_varint]

/-- The caller-facing request: image reference string (as its bytes), opaque
pull configuration, opaque input payload, optional timeout duration
(nanoseconds). -/
structure RunFunctionRequest where
  image : List Nat
  imagePullConfig : List Nat
  input : List Nat
  timeout : Option Nat
  deriving DecidableEq, Repr

/-- The caller-facing response: opaque output payload bytes. -/
structure RunFunctionResponse where
  output : List Nat
  deriving DecidableEq, Repr

/-- Serialize a request to wire bytes. -/
def encodeRequest (r : RunFunctionRequest) : List Nat :=
  encBytes r.image ++ (encBytes r.imagePullConfig ++ (encBytes r.input ++ encOptNat r.timeout))

/-- Parse wire bytes as a request, consuming the entire buffer. -/
def decodeRequest (l : List Nat) : Option RunFunctionRequest :=
  match decBytes l with
  | none => none
  | some (img, r1) =>
    match decBytes r1 with
    | none => none
    | some (cfg, r2) =>
      match decBytes r2 with
      | none => none
      | some (inp, r3) =>
        match decOptNat r3 with
        | none => none
        | some (t, r4) =>
          if r4 = [] then some ⟨img, cfg, inp, t⟩ else none

/-- Serialize a response to wire bytes. -/
def encodeResponse (r : RunFunctionResponse) : List Nat :=
  encBytes r.output

/-- Parse wire bytes as a response, consuming the entire buffer. -/
def decodeResponse (l : List Nat) : Option RunFunctionResponse :=
  match decBytes l with
  | none => none
  | some (out, r1) => if r1 = [] then some ⟨out⟩ else none

theorem decodeRequest_encodeRequest (r : RunFunctionRequest) :
    decodeRequest (encodeRequest r) = some r := by
  have h0 : encOptNat r.timeout = encOptNat r.timeout ++ [] := by simp
  simp only [decodeRequest, encodeRequest, decBytes_encBytes]
  rw [h0, decOptNat_encOptNat]
  simp

theorem decodeResponse_encodeResponse (r : RunFunctionResponse) :
    decodeResponse (encodeResponse r) = some r := by
  have h0 : encBytes r.output = encBytes r.output ++ [] := by simp
  rw [decodeResponse, encodeResponse, h0, decBytes_encBytes]
  simp

end Envelope

namespace Spark

/-!
Embedding of `cmd/xfn/spark/spark.go`. Each effectful step of
`Command.Run` (stdin read, bundler construction, digest store, reference
parse, image pull, bundling, mkdir, the child runtime process, bundle
cleanup, response marshal, stdout write) has its outcome supplied by an
`Env` record; `sparkRun` reproduces `Command.Run`'s control flow over those
outcomes and records a trace of observable events. Durations are
nanoseconds, as in Go's `time.Duration`.
-/

/-- The errors `Command.Run` can return, one per wrap site in `spark.go`. -/
inductive RunError
  | readRequest
  | unmarshalRequest
  | newBundleStore
  | newDigestStore
  | parseRef
  | pull
  | bundleFn
  | mkRuntimeRootdir
  | runtime
  | cleanupBundle
  | marshalResponse
  | writeResponse
  deriving DecidableEq, Repr

/-- The error string each error is wrapped with (the `err*` constants of
`spark.go`). -/
def RunError.message : RunError → String
  | .readRequest => "cannot read request from stdin"
  | .unmarshalRequest => "cannot unmarshal request data from stdin"
  | .newBundleStore => "cannot create OCI runtime bundle store"
  | .newDigestStore => "cannot create OCI image digest store"
  | .parseRef => "cannot parse OCI image reference"
  | .pull => "cannot pull OCI image"
  | .bundleFn => "cannot create OCI runtime bundle"
  | .mkRuntimeRootdir => "cannot make OCI runtime cache"
  | .runtime => "OCI runtime error"
  | .cleanupBundle => "cannot cleanup OCI runtime bundle"
  | .marshalResponse => "cannot marshal response data to stdout"
  | .writeResponse => "cannot write response data to stdout"

/-- One nanosecond, the unit of Go's `time.Duration`. -/
def nanosecond : Nat := 1

/-- `time.Second` in nanoseconds. -/
def second : Nat := 1000000000

/-- `defaultTimeout = 25 * time.Second`: the time after which the OCI
runtime is killed if the request specifies none. -/
def defaultTimeout : Nat := 25 * second

/-- The path within the cache dir used for the OCI runtime's `--root`. -/
def ociRuntimeRoot : String := "runtime"

/-- The `spark` command's flags: cache directory and runtime binary. -/
structure Command where
  CacheDir : String
  Runtime : String
  deriving DecidableEq, Repr

/-- The `RunFunctionConfig` message carried by a request: an optional
timeout (nanoseconds). -/
structure RunFunctionConfig where
  timeout : Option Nat
  deriving DecidableEq, Repr

/-- The decoded `RunFunctionRequest` as `Command.Run` consumes it. -/
structure Request where
  image : String
  imagePullConfig : List Nat
  input : List Nat
  runFunctionConfig : Option RunFunctionConfig
  deriving DecidableEq, Repr

/-- `req.GetRunFunctionConfig().GetTimeout().AsDuration()`: protobuf getters
on absent messages yield zero values, so an absent config or absent timeout
yields duration 0. -/
def Request.timeoutDuration (r : Request) : Nat :=
  match r.runFunctionConfig with
  | none => 0
  | some cfg => cfg.timeout.getD 0

/-- The `RunFunctionResponse` built from the child's captured stdout. -/
structure Response where
  output : List Nat
  deriving DecidableEq, Repr

/-- A context carrying the deadline from `context.WithTimeout` (nanoseconds
from the start of the run). -/
structure Ctx where
  timeout : Nat
  deriving DecidableEq, Repr

/-- The two bundler strategies of `internal/oci/store`. -/
inductive Strategy
  | uncompressed
  | overlayCaching
  deriving DecidableEq, Repr

/-- An opaque parsed OCI image reference (`name.ParseReference` result). -/
structure ImageRef where
  id : Nat
  deriving DecidableEq, Repr

/-- An opaque pulled OCI image. -/
structure Image where
  id : Nat
  deriving DecidableEq, Repr

/-- An OCI runtime bundle: a rootfs path plus a cleanup capability. -/
structure Bundle where
  path : String
  deriving DecidableEq, Repr

/-- The child OCI runtime process's behavior: when (if ever) it would exit
on its own (nanoseconds after spawn), whether its exit code is zero, and
what it writes on its stdout and stderr streams. -/
structure ChildProc where
  exitsAt : Option Nat
  exitCodeZero : Bool
  stdout : List Nat
  stderr : List Nat
  deriving DecidableEq, Repr

/-- Outcome of `cmd.Output()` for a command created with
`exec.CommandContext`. -/
structure ExecOutcome where
  output : Except Unit (List Nat)
  killed : Bool
  leftRunning : Bool
  finishedAt : Nat
  deriving Repr

/-- Embeds the contract of Go's `exec.CommandContext` plus `cmd.Output`: if
the child exits on its own before the context's deadline, `Output` returns
its captured stdout (an error when the exit code is nonzero); if the child
has not exited when the deadline expires, the process is killed — never
left running — and `Output` returns an error at the deadline. -/
def execModel (deadline : Nat) (c : ChildProc) : ExecOutcome :=
  match c.exitsAt with
  | some t =>
    if t < deadline then
      { output := if c.exitCodeZero then Except.ok c.stdout else Except.error ()
        killed := false, leftRunning := false, finishedAt := t }
    else
      { output := Except.error (), killed := true, leftRunning := false
        finishedAt := deadline }
  | none =>
      { output := Except.error (), killed := true, leftRunning := false
        finishedAt := deadline }

/-- Observable events of one run, in order of occurrence. -/
inductive Event
  | selectBundler (strategy : Strategy)
  | pullImage (ctx : Ctx) (ref : ImageRef) (cfg : List Nat)
  | bundleImage (ctx : Ctx) (strategy : Strategy) (img : Image) (runID : String)
  | mkdirAll (path : String)
  | execRuntime (ctx : Ctx) (bin : String) (args : List String) (stdin : List Nat)
  | cleanupCalled
  | writeStdout (bytes : List Nat)
  deriving DecidableEq, Repr

/-- Outcomes of the effectful steps `Command.Run` performs, supplied by the
outside world (stdin, registry, filesystem, child process). -/
structure Env where
  stdin : Except Unit (List Nat)
  unmarshal : List Nat → Except Unit Request
  runID : String
  overlaySupported : Bool
  newCachingBundler : Except Unit Unit
  newDigest : Except Unit Unit
  parseReference : String → Except Unit ImageRef
  pullImage : Ctx → ImageRef → List Nat → Except Unit Image
  bundle : Ctx → Strategy → Image → String → Except Unit Bundle
  mkdirAll : String → Except Unit Unit
  child : ChildProc
  cleanupResult : Except Unit Unit
  marshal : Response → Except Unit (List Nat)
  writeStdout : List Nat → Except Unit Unit

/-- What one invocation of `Command.Run` did: its returned error (if any),
the event trace, the response built (if it got that far), and the fate of
the child process. -/
structure RunOutcome where
  result : Except RunError Unit
  events : List Event
  response : Option Response := none
  childKilled : Bool := false
  childLeftRunning : Bool := false
  execFinishedAt : Option Nat := none
  deriving Repr

/-- `filepath.Join` for a clean directory and a relative name. -/
def filepathJoin (a b : String) : String := a ++ "/" ++ b

/-- The deadline for the run: the request's timeout, or `defaultTimeout`
when that is zero (`if t == 0 { t = defaultTimeout }`). -/
def reqTimeout (req : Request) : Nat :=
  if req.timeoutDuration = 0 then defaultTimeout else req.timeoutDuration

/-- The context created by `context.WithTimeout(context.Background(), t)`. -/
def reqCtx (req : Request) : Ctx := ⟨reqTimeout req⟩

/-- Bundler strategy selection: `s := uncompressed.NewBundler(...)`, then
`if overlay.Supported(c.CacheDir) { s, err = overlay.NewCachingBundler(...) }`,
returning the construction error when overlay is supported but its bundler
cannot be built. -/
def selectStrategy (env : Env) : Except Unit Strategy :=
  if env.overlaySupported then
    match env.newCachingBundler with
    | .ok _ => .ok .overlayCaching
    | .error e => .error e
  else .ok .uncompressed

/-- `Command.Run`, translated statement by statement from `spark.go`. -/
def sparkRun (c : Command) (env : Env) : RunOutcome :=
  match env.stdin with
  | .error _ => { result := .error .readRequest, events := [] }
  | .ok pb =>
  match env.unmarshal pb with
  | .error _ => { result := .error .unmarshalRequest, events := [] }
  | .ok req =>
  let ctx := reqCtx req
  let runID := env.runID
  match selectStrategy env with
  | .error _ => { result := .error .newBundleStore, events := [] }
  | .ok strat =>
  let ev0 := [Event.selectBundler strat]
  match env.newDigest with
  | .error _ => { result := .error .newDigestStore, events := ev0 }
  | .ok _ =>
  match env.parseReference req.image with
  | .error _ => { result := .error .parseRef, events := ev0 }
  | .ok r =>
  let ev1 := ev0 ++ [Event.pullImage ctx r req.imagePullConfig]
  match env.pullImage ctx r req.imagePullConfig with
  | .error _ => { result := .error .pull, events := ev1 }
  | .ok img =>
  let ev2 := ev1 ++ [Event.bundleImage ctx strat img runID]
  match env.bundle ctx strat img runID with
  | .error _ => { result := .error .bundleFn, events := ev2 }
  | .ok b =>
  let root := filepathJoin c.CacheDir ociRuntimeRoot
  let ev3 := ev2 ++ [Event.mkdirAll root]
  match env.mkdirAll root with
  | .error _ =>
    { result := .error .mkRuntimeRootdir, events := ev3 ++ [Event.cleanupCalled] }
  | .ok _ =>
  let args := ["--root=" ++ root, "run", "--bundle=" ++ b.path, runID]
  let ex := execModel ctx.timeout env.child
  let ev4 := ev3 ++ [Event.execRuntime ctx c.Runtime args req.input]
  match ex.output with
  | .error _ =>
    { result := .error .runtime, events := ev4 ++ [Event.cleanupCalled]
      childKilled := ex.killed, childLeftRunning := ex.leftRunning
      execFinishedAt := some ex.finishedAt }
  | .ok out =>
  let ev5 := ev4 ++ [Event.cleanupCalled]
  match env.cleanupResult with
  | .error _ =>
    { result := .error .cleanupBundle, events := ev5
      childKilled := ex.killed, childLeftRunning := ex.leftRunning
      execFinishedAt := some ex.finishedAt }
  | .ok _ =>
  let rsp : Response := ⟨out⟩
  match env.marshal rsp with
  | .error _ =>
    { result := .error .marshalResponse, events := ev5, response := some rsp
      childKilled := ex.killed, childLeftRunning := ex.leftRunning
      execFinishedAt := some ex.finishedAt }
  | .ok pb2 =>
  let ev6 := ev5 ++ [Event.writeStdout pb2]
  match env.writeStdout pb2 with
  | .error _ =>
    { result := .error .writeResponse, events := ev6, response := some rsp
      childKilled := ex.killed, childLeftRunning := ex.leftRunning
      execFinishedAt := some ex.finishedAt }
  | .ok _ =>
    { result := .ok (), events := ev6, response := some rsp
      childKilled := ex.killed, childLeftRunning := ex.leftRunning
      execFinishedAt := some ex.finishedAt }

/-- Does an event record a bundle cleanup call? -/
def isCleanup : Event → Bool
  | .cleanupCalled => true
  | _ => false

/-- How many times `b.Cleanup()` was invoked during the run. -/
def cleanupCount (evs : List Event) : Nat := (evs.filter isCleanup).length

/-- Does an event record a write to stdout? -/
def isWrite : Event → Bool
  | .writeStdout _ => true
  | _ => false

/-- Did the run write any response bytes to stdout? -/
def wroteResponse (o : RunOutcome) : Bool := o.events.any isWrite

/-- Does an event record an image pull? -/
def isPull : Event → Bool
  | .pullImage _ _ _ => true
  | _ => false

/-- Does an event record bundler strategy selection? -/
def isSelect : Event → Bool
  | .selectBundler _ => true
  | _ => false

/-- The strategies recorded as selected during the run, in order. -/
def strategiesChosen (evs : List Event) : List Strategy :=
  evs.filterMap fun e =>
    match e with
    | .selectBundler s => some s
    | _ => none

/-- `true` when some pull event precedes every bundler-selection event. -/
def pullBeforeSelect (evs : List Event) : Bool :=
  (evs.takeWhile fun e => !isSelect e).any isPull

/-- The deadline contexts handed to the pull, bundle and exec steps. -/
def stepCtxs (evs : List Event) : List Ctx :=
  evs.filterMap fun e =>
    match e with
    | .pullImage ctx _ _ => some ctx
    | .bundleImage ctx _ _ _ => some ctx
    | .execRuntime ctx _ _ _ => some ctx
    | _ => none

/-- The external-runtime invocations recorded during the run: context,
binary, argument list, stdin bytes. -/
def execCalls (evs : List Event) : List (Ctx × String × List String × List Nat) :=
  evs.filterMap fun e =>
    match e with
    | .execRuntime ctx bin args stdin => some (ctx, bin, args, stdin)
    | _ => none

/-- A concrete request for witnesses: no timeout configured. -/
def sampleReq : Request :=
  { image := "example.org/fn", imagePullConfig := [1], input := [2, 3]
    runFunctionConfig := none }

/-- Concrete command flags for witnesses. -/
def sampleCmd : Command := { CacheDir := "/xfn", Runtime := "crun" }

/-- A concrete environment in which every step succeeds and the child exits
promptly with code zero. -/
def sampleEnv : Env where
  stdin := .ok [9]
  unmarshal := fun _ => .ok sampleReq
  runID := "run-1"
  overlaySupported := false
  newCachingBundler := .ok ()
  newDigest := .ok ()
  parseReference := fun _ => .ok ⟨0⟩
  pullImage := fun _ _ _ => .ok ⟨1⟩
  bundle := fun _ _ _ _ => .ok ⟨"/xfn/bundle"⟩
  mkdirAll := fun _ => .ok ()
  child := { exitsAt := some 5, exitCodeZero := true, stdout := [7], stderr := [8] }
  cleanupResult := .ok ()
  marshal := fun r => .ok r.output
  writeStdout := fun _ => .ok ()

/-- C1: whenever the pipeline reaches `s.Bundle` and a Bundle is created,
`b.Cleanup()` is invoked exactly once before `Run` returns, on every exit
path: runtime-root creation failure, execution failure, cleanup-only
failure, marshal/write failure, and normal completion. -/
theorem run_cleanup_exactly_once (c : Command) (env : Env)
    (pb : List Nat) (req : Request) (strat : Strategy) (r : ImageRef)
    (img : Image) (b : Bundle)
    (hs : env.stdin = .ok pb)
    (hu : env.unmarshal pb = .ok req)
    (hsel : selectStrategy env = .ok strat)
    (hd : env.newDigest = .ok ())
    (hr : env.parseReference req.image = .ok r)
    (hp : env.pullImage (reqCtx req) r req.imagePullConfig = .ok img)
    (hb : env.bundle (reqCtx req) strat img env.runID = .ok b) :
    cleanupCount (sparkRun c env).events = 1 := by
  simp only [sparkRun, hs, hu, hsel, hd, hr, hp, hb]
  repeat' split
  all_goals simp [cleanupCount, isCleanup]

/-- Witness for C1 at a concrete environment. -/
theorem run_cleanup_exactly_once_witness :
    sampleEnv.stdin = .ok [9] ∧
    sampleEnv.unmarshal [9] = .ok sampleReq ∧
    selectStrategy sampleEnv = .ok .uncompressed ∧
    sampleEnv.newDigest = .ok () ∧
    sampleEnv.parseReference sampleReq.image = .ok ⟨0⟩ ∧
    sampleEnv.pullImage (reqCtx sampleReq) ⟨0⟩ sampleReq.imagePullConfig = .ok ⟨1⟩ ∧
    sampleEnv.bundle (reqCtx sampleReq) .uncompressed ⟨1⟩ sampleEnv.runID = .ok ⟨"/xfn/bundle"⟩ ∧
    cleanupCount (sparkRun sampleCmd sampleEnv).events = 1 :=
  ⟨rfl, rfl, rfl, rfl, rfl, rfl, rfl,
    run_cleanup_exactly_once sampleCmd sampleEnv [9] sampleReq .uncompressed ⟨0⟩ ⟨1⟩
      ⟨"/xfn/bundle"⟩ rfl rfl rfl rfl rfl rfl rfl⟩

/-- `true` exactly when the run's result permits response bytes on stdout:
success, or a failure of the stdout write itself. -/
def resultAllowsOutput : Except RunError Unit → Bool
  | .ok _ => true
  | .error .writeResponse => true
  | .error _ => false

/-- C2: response bytes appear on stdout exactly when every step before the
write succeeded — equivalently, whenever any earlier step fails (read,
decode, bundler construction, digest store, reference parse, pull, bundle,
runtime-root creation, execution, cleanup, or marshal), `Run` returns that
step's error and nothing is written to stdout. -/
theorem run_no_partial_response (c : Command) (env : Env) :
    wroteResponse (sparkRun c env) = resultAllowsOutput (sparkRun c env).result := by
  simp only [sparkRun]
  repeat' split
  all_goals simp [wroteResponse, isWrite, resultAllowsOutput]

/-- C3: one deadline, derived from the request's timeout — exactly 25
seconds when the request specifies none — is carried by the single context
handed to the pull, bundle and external-runtime steps. -/
theorem run_single_deadline (c : Command) (env : Env)
    (pb : List Nat) (req : Request)
    (hs : env.stdin = .ok pb)
    (hu : env.unmarshal pb = .ok req) :
    ((stepCtxs (sparkRun c env).events).all fun x => decide (x = reqCtx req)) = true ∧
    (req.timeoutDuration = 0 → reqCtx req = ⟨25 * second⟩) := by
  constructor
  · simp only [sparkRun, hs, hu]
    repeat' split
    all_goals simp [stepCtxs]
  · intro h0
    simp [reqCtx, reqTimeout, h0, defaultTimeout]

/-- Witness for C3 at a concrete environment. -/
theorem run_single_deadline_witness :
    sampleEnv.stdin = .ok [9] ∧
    sampleEnv.unmarshal [9] = .ok sampleReq ∧
    (((stepCtxs (sparkRun sampleCmd sampleEnv).events).all
        fun x => decide (x = reqCtx sampleReq)) = true ∧
      (sampleReq.timeoutDuration = 0 → reqCtx sampleReq = ⟨25 * second⟩)) :=
  ⟨rfl, rfl, run_single_deadline sampleCmd sampleEnv [9] sampleReq rfl rfl⟩

/-- C4: when the child process has not exited by the deadline, it is
forcibly killed — never left running — and `Run` fails with the
runtime-execution error exactly at the deadline. -/
theorem run_timeout_kills_child (c : Command) (env : Env)
    (pb : List Nat) (req : Request) (strat : Strategy) (r : ImageRef)
    (img : Image) (b : Bundle)
    (hs : env.stdin = .ok pb)
    (hu : env.unmarshal pb = .ok req)
    (hsel : selectStrategy env = .ok strat)
    (hd : env.newDigest = .ok ())
    (hr : env.parseReference req.image = .ok r)
    (hp : env.pullImage (reqCtx req) r req.imagePullConfig = .ok img)
    (hb : env.bundle (reqCtx req) strat img env.runID = .ok b)
    (hm : env.mkdirAll (filepathJoin c.CacheDir ociRuntimeRoot) = .ok ())
    (hlate : reqTimeout req ≤ env.child.exitsAt.getD (reqTimeout req)) :
    (sparkRun c env).result = .error .runtime ∧
    (sparkRun c env).childKilled = true ∧
    (sparkRun c env).childLeftRunning = false ∧
    (sparkRun c env).execFinishedAt = some (reqTimeout req) := by
  have hex : execModel (reqCtx req).timeout env.child =
      { output := Except.error (), killed := true, leftRunning := false
        finishedAt := reqTimeout req } := by
    cases hts : env.child.exitsAt with
    | none => simp [execModel, hts, reqCtx]
    | some te =>
      rw [hts] at hlate
      simp only [Option.getD_some] at hlate
      have hnl : ¬ te < reqTimeout req := by omega
      simp [execModel, hts, reqCtx, hnl]
  simp only [sparkRun, hs, hu, hsel, hd, hr, hp, hb, hm, hex]
  simp

/-- A child that never exits on its own, for the timeout witness. -/
def stuckChild : ChildProc :=
  { exitsAt := none, exitCodeZero := false, stdout := [], stderr := [] }

/-- Witness for C4: a 1-nanosecond timeout and a child that never exits. -/
theorem run_timeout_kills_child_witness :
    ({ sampleEnv with
        child := stuckChild
        unmarshal := fun _ =>
          .ok { sampleReq with runFunctionConfig := some ⟨some 1⟩ } } :
      Env).stdin = .ok [9] ∧
    (sparkRun sampleCmd
      { sampleEnv with
        child := stuckChild
        unmarshal := fun _ =>
          .ok { sampleReq with runFunctionConfig := some ⟨some 1⟩ } }).result =
      .error .runtime ∧
    (sparkRun sampleCmd
      { sampleEnv with
        child := stuckChild
        unmarshal := fun _ =>
          .ok { sampleReq with runFunctionConfig := some ⟨some 1⟩ } }).childKilled = true ∧
    (sparkRun sampleCmd
      { sampleEnv with
        child := stuckChild
        unmarshal := fun _ =>
          .ok { sampleReq with runFunctionConfig := some ⟨some 1⟩ } }).childLeftRunning
      = false ∧
    (sparkRun sampleCmd
      { sampleEnv with
        child := stuckChild
        unmarshal := fun _ =>
          .ok { sampleReq with runFunctionConfig := some ⟨some 1⟩ } }).execFinishedAt =
      some (reqTimeout { sampleReq with runFunctionConfig := some ⟨some 1⟩ }) := by
  refine ⟨rfl, ?_⟩
  have h := run_timeout_kills_child sampleCmd
    { sampleEnv with
      child := stuckChild
      unmarshal := fun _ => .ok { sampleReq with runFunctionConfig := some ⟨some 1⟩ } }
    [9] { sampleReq with runFunctionConfig := some ⟨some 1⟩ }
    .uncompressed ⟨0⟩ ⟨1⟩ ⟨"/xfn/bundle"⟩
    rfl rfl rfl rfl rfl rfl rfl rfl (by simp [stuckChild, reqTimeout])
  exact ⟨h.1, h.2.1, h.2.2.1, h.2.2.2⟩

/-- C5: bundler strategy selection is a single per-process capability probe
made before any image is resolved: overlay support selects the
overlay-caching bundler, its absence selects the uncompressed bundler, and
a failed overlay-bundler construction after a positive probe is a hard
bundle-store error with no fallback to the uncompressed strategy. -/
theorem run_bundler_selection (c : Command) (env : Env)
    (pb : List Nat) (req : Request)
    (hs : env.stdin = .ok pb)
    (hu : env.unmarshal pb = .ok req) :
    (env.overlaySupported = false →
      strategiesChosen (sparkRun c env).events = [Strategy.uncompressed]) ∧
    (env.overlaySupported = true → env.newCachingBundler = .ok () →
      strategiesChosen (sparkRun c env).events = [Strategy.overlayCaching]) ∧
    (env.overlaySupported = true → env.newCachingBundler = .error () →
      (sparkRun c env).result = .error .newBundleStore ∧
      strategiesChosen (sparkRun c env).events = []) ∧
    pullBeforeSelect (sparkRun c env).events = false := by
  refine ⟨?_, ?_, ?_, ?_⟩
  · intro h0
    have hsel : selectStrategy env = .ok .uncompressed := by simp [selectStrategy, h0]
    simp only [sparkRun, hs, hu, hsel]
    repeat' split
    all_goals simp [strategiesChosen]
  · intro h0 h1
    have hsel : selectStrategy env = .ok .overlayCaching := by simp [selectStrategy, h0, h1]
    simp only [sparkRun, hs, hu, hsel]
    repeat' split
    all_goals simp [strategiesChosen]
  · intro h0 h1
    have hsel : selectStrategy env = .error () := by simp [selectStrategy, h0, h1]
    simp only [sparkRun, hs, hu, hsel]
    simp [strategiesChosen]
  · cases hsel : selectStrategy env with
    | error e =>
      simp only [sparkRun, hs, hu, hsel]
      simp [pullBeforeSelect]
    | ok strat =>
      simp only [sparkRun, hs, hu, hsel]
      repeat' split
      all_goals simp [pullBeforeSelect, isSelect, isPull, List.takeWhile]

/-- Witness for C5 at a concrete environment. -/
theorem run_bundler_selection_witness :
    sampleEnv.stdin = .ok [9] ∧
    sampleEnv.unmarshal [9] = .ok sampleReq ∧
    ((sampleEnv.overlaySupported = false →
        strategiesChosen (sparkRun sampleCmd sampleEnv).events = [Strategy.uncompressed]) ∧
      (sampleEnv.overlaySupported = true → sampleEnv.newCachingBundler = .ok () →
        strategiesChosen (sparkRun sampleCmd sampleEnv).events = [Strategy.overlayCaching]) ∧
      (sampleEnv.overlaySupported = true → sampleEnv.newCachingBundler = .error () →
        (sparkRun sampleCmd sampleEnv).result = .error .newBundleStore ∧
        strategiesChosen (sparkRun sampleCmd sampleEnv).events = []) ∧
      pullBeforeSelect (sparkRun sampleCmd sampleEnv).events = false) :=
  ⟨rfl, rfl, run_bundler_selection sampleCmd sampleEnv [9] sampleReq rfl rfl⟩

/-- If `cmd.Output()` succeeds under the exec model, what it returns is the
child's stdout stream — never its stderr. -/
theorem execModel_output_ok {d : Nat} {ch : ChildProc} {out : List Nat}
    (h : (execModel d ch).output = .ok out) : out = ch.stdout := by
  cases hts : ch.exitsAt with
  | none => simp [execModel, hts] at h
  | some te =>
    by_cases hlt : te < d
    · by_cases hz : ch.exitCodeZero = true
      · simp [execModel, hts, hlt, hz] at h
        exact h.symm
      · simp [execModel, hts, hlt, hz] at h
    · simp [execModel, hts, hlt] at h

/-- C6: the external runtime is invoked exactly once, with argument list
`--root=<cache-dir>/runtime, run, --bundle=<bundle-path>, <run-id>` (the run
identifier last), the request's input bytes on its stdin; and only the
child's stdout (never its stderr) can become the Response's output. -/
theorem run_exec_invocation (c : Command) (env : Env)
    (pb : List Nat) (req : Request) (strat : Strategy) (r : ImageRef)
    (img : Image) (b : Bundle)
    (hs : env.stdin = .ok pb)
    (hu : env.unmarshal pb = .ok req)
    (hsel : selectStrategy env = .ok strat)
    (hd : env.newDigest = .ok ())
    (hr : env.parseReference req.image = .ok r)
    (hp : env.pullImage (reqCtx req) r req.imagePullConfig = .ok img)
    (hb : env.bundle (reqCtx req) strat img env.runID = .ok b)
    (hm : env.mkdirAll (filepathJoin c.CacheDir ociRuntimeRoot) = .ok ()) :
    execCalls (sparkRun c env).events =
      [(reqCtx req, c.Runtime,
        ["--root=" ++ filepathJoin c.CacheDir ociRuntimeRoot, "run",
          "--bundle=" ++ b.path, env.runID], req.input)] ∧
    ((execModel (reqCtx req).timeout env.child).output = .ok env.child.stdout ∨
      (execModel (reqCtx req).timeout env.child).output = .error ()) ∧
    ((execModel (reqCtx req).timeout env.child).output = .ok env.child.stdout →
      env.cleanupResult = .ok () →
      (sparkRun c env).response = some ⟨env.child.stdout⟩) := by
  refine ⟨?_, ?_, ?_⟩
  · simp only [sparkRun, hs, hu, hsel, hd, hr, hp, hb, hm]
    repeat' split
    all_goals simp [execCalls]
  · cases ho : (execModel (reqCtx req).timeout env.child).output with
    | error e => right; cases e; rfl
    | ok out => left; exact congrArg Except.ok (execModel_output_ok ho)
  · intro ho hcl
    simp only [sparkRun, hs, hu, hsel, hd, hr, hp, hb, hm, ho, hcl]
    repeat' split
    all_goals simp_all

/-- Witness for C6 at a concrete environment. -/
theorem run_exec_invocation_witness :
    sampleEnv.stdin = .ok [9] ∧
    (execCalls (sparkRun sampleCmd sampleEnv).events =
      [(reqCtx sampleReq, sampleCmd.Runtime,
        ["--root=" ++ filepathJoin sampleCmd.CacheDir ociRuntimeRoot, "run",
          "--bundle=" ++ Bundle.path ⟨"/xfn/bundle"⟩, sampleEnv.runID],
        sampleReq.input)] ∧
      ((execModel (reqCtx sampleReq).timeout sampleEnv.child).output =
          .ok sampleEnv.child.stdout ∨
        (execModel (reqCtx sampleReq).timeout sampleEnv.child).output = .error ()) ∧
      ((execModel (reqCtx sampleReq).timeout sampleEnv.child).output =
          .ok sampleEnv.child.stdout →
        sampleEnv.cleanupResult = .ok () →
        (sparkRun sampleCmd sampleEnv).response = some ⟨sampleEnv.child.stdout⟩)) :=
  ⟨rfl, run_exec_invocation sampleCmd sampleEnv [9] sampleReq .uncompressed ⟨0⟩ ⟨1⟩
    ⟨"/xfn/bundle"⟩ rfl rfl rfl rfl rfl rfl rfl rfl⟩

/-- C7: a cleanup failure never masks a prior error — runtime-root and
execution failures are returned regardless of the cleanup result — and the
cleanup error is `Run`'s result exactly when every step up to and including
execution succeeded and only cleanup failed. -/
theorem run_cleanup_error_secondary (c : Command) (env : Env)
    (pb : List Nat) (req : Request) (strat : Strategy) (r : ImageRef)
    (img : Image) (b : Bundle)
    (hs : env.stdin = .ok pb)
    (hu : env.unmarshal pb = .ok req)
    (hsel : selectStrategy env = .ok strat)
    (hd : env.newDigest = .ok ())
    (hr : env.parseReference req.image = .ok r)
    (hp : env.pullImage (reqCtx req) r req.imagePullConfig = .ok img)
    (hb : env.bundle (reqCtx req) strat img env.runID = .ok b) :
    (env.mkdirAll (filepathJoin c.CacheDir ociRuntimeRoot) = .error () →
      (sparkRun c env).result = .error .mkRuntimeRootdir) ∧
    (env.mkdirAll (filepathJoin c.CacheDir ociRuntimeRoot) = .ok () →
      (execModel (reqCtx req).timeout env.child).output = .error () →
      (sparkRun c env).result = .error .runtime) ∧
    ((sparkRun c env).result = .error .cleanupBundle ↔
      (env.mkdirAll (filepathJoin c.CacheDir ociRuntimeRoot) = .ok () ∧
        (execModel (reqCtx req).timeout env.child).output = .ok env.child.stdout ∧
        env.cleanupResult = .error ())) := by
  refine ⟨?_, ?_, ?_⟩
  · intro hm
    simp only [sparkRun, hs, hu, hsel, hd, hr, hp, hb, hm]
  · intro hm ho
    simp only [sparkRun, hs, hu, hsel, hd, hr, hp, hb, hm, ho]
  · constructor
    · intro hres
      cases hm : env.mkdirAll (filepathJoin c.CacheDir ociRuntimeRoot) with
      | error e =>
        cases e
        simp [sparkRun, hs, hu, hsel, hd, hr, hp, hb, hm] at hres
      | ok u =>
        cases u
        cases ho : (execModel (reqCtx req).timeout env.child).output with
        | error e =>
          cases e
          simp [sparkRun, hs, hu, hsel, hd, hr, hp, hb, hm, ho] at hres
        | ok out =>
          cases hcl : env.cleanupResult with
          | error e2 =>
            cases e2
            exact ⟨rfl, by rw [← execModel_output_ok ho], rfl⟩
          | ok u2 =>
            cases u2
            exfalso
            simp only [sparkRun, hs, hu, hsel, hd, hr, hp, hb, hm, ho, hcl] at hres
            repeat' split at hres
            all_goals simp at hres
    · rintro ⟨hm, ho, hcl⟩
      simp [sparkRun, hs, hu, hsel, hd, hr, hp, hb, hm, ho, hcl]

/-- Witness for C7 at a concrete environment. -/
theorem run_cleanup_error_secondary_witness :
    sampleEnv.stdin = .ok [9] ∧
    ((sampleEnv.mkdirAll (filepathJoin sampleCmd.CacheDir ociRuntimeRoot) = .error () →
        (sparkRun sampleCmd sampleEnv).result = .error .mkRuntimeRootdir) ∧
      (sampleEnv.mkdirAll (filepathJoin sampleCmd.CacheDir ociRuntimeRoot) = .ok () →
        (execModel (reqCtx sampleReq).timeout sampleEnv.child).output = .error () →
        (sparkRun sampleCmd sampleEnv).result = .error .runtime) ∧
      ((sparkRun sampleCmd sampleEnv).result = .error .cleanupBundle ↔
        (sampleEnv.mkdirAll (filepathJoin sampleCmd.CacheDir ociRuntimeRoot) = .ok () ∧
          (execModel (reqCtx sampleReq).timeout sampleEnv.child).output =
            .ok sampleEnv.child.stdout ∧
          sampleEnv.cleanupResult = .error ()))) :=
  ⟨rfl, run_cleanup_error_secondary sampleCmd sampleEnv [9] sampleReq .uncompressed
    ⟨0⟩ ⟨1⟩ ⟨"/xfn/bundle"⟩ rfl rfl rfl rfl rfl rfl rfl⟩

end Spark

/-- C8: encoding a Request and then decoding the bytes yields the original
value, field for field, and likewise for Response — for arbitrary payload
byte sequences, empty or large. -/
theorem envelope_roundtrip :
    (∀ req : Envelope.RunFunctionRequest,
      Envelope.decodeRequest (Envelope.encodeRequest req) = some req) ∧
    (∀ rsp : Envelope.RunFunctionResponse,
      Envelope.decodeResponse (Envelope.encodeResponse rsp) = some rsp) :=
  ⟨Envelope.decodeRequest_encodeRequest, Envelope.decodeResponse_encodeResponse⟩

namespace Update

/-!
Embedding of `cmd/crank/xpkg/update.go`. The three commands
(`updateConfigCmd.Run`, `updateProviderCmd.Run`, `updateFunctionCmd.Run`)
are textually identical up to the object kind, so they are embedded as one
function over a kind parameter. Kubernetes client calls and reference
parsing are supplied by an environment of step outcomes.
-/

/-- Classification of a Kubernetes client error: a "not found" status, or
anything else. -/
inductive KubeErr
  | notFound
  | other
  deriving DecidableEq, Repr

/-- Object metadata fetched with the prior object and carried over verbatim
into the patch. -/
structure ObjectMeta where
  name : String
  resourceVersion : String
  labels : List (String × String)
  deriving DecidableEq, Repr

/-- Package-spec fields other than `Package`, carried over verbatim into
the patch. -/
structure PackageSpecRest where
  revisionActivationPolicy : Option String
  revisionHistoryLimit : Option Nat
  packagePullPolicy : Option String
  ignoreCrossplaneConstraints : Option Bool
  deriving DecidableEq, Repr

/-- A stored package object (Configuration, Provider or Function): its
metadata, its `Spec.Package` field, and the rest of its spec. -/
structure PkgObject where
  metadata : ObjectMeta
  specPackage : String
  specRest : PackageSpecRest
  deriving DecidableEq, Repr

/-- The three update commands. -/
inductive PkgKind
  | config
  | provider
  | func
  deriving DecidableEq, Repr

/-- Positional arguments of an update command: object name and new tag. -/
structure UpdateArgs where
  Name : String
  Tag : String
  deriving DecidableEq, Repr

/-- `pkgReference.Context().Digest(tag).Name()`: the digest-qualified
reference string, repository followed by `@` and the digest. -/
def digestName (repo d : String) : String := repo ++ "@" ++ d

/-- `pkgReference.Context().Tag(tag).Name()`: the tag-qualified reference
string, repository followed by `:` and the tag. -/
def tagName (repo t : String) : String := repo ++ ":" ++ t

/-- `strings.HasPrefix(c.Tag, "sha256")`: is `"sha256"` a prefix of the
tag's character sequence? -/
def tagIsDigest (tag : String) : Bool := "sha256".data.isPrefixOf tag.data

/-- The errors an update command can return, one per wrap site. -/
inductive UpdateError
  | kubeConfig
  | kubeClient
  | cannotUpdate
  | printFailed
  deriving DecidableEq, Repr

/-- Modelled from the spec: `warnIfNotFound` (defined elsewhere in the
repository; only its call sites appear in `update.go`) downgrades a
Kubernetes "not found" error when reading a prior object to a warning
rather than a hard error; every other error passes through unchanged.
Returns the possibly-downgraded error and whether a warning was emitted. -/
def warnIfNotFound : KubeErr → Option KubeErr × Bool
  | .notFound => (none, true)
  | .other => (some .other, false)

/-- `errors.Wrap` from crossplane-runtime: wrapping a `nil` error yields
`nil`, so a downgraded (absent) error stays absent. -/
def errorsWrap (e : Option KubeErr) : Option UpdateError :=
  e.map fun _ => .cannotUpdate

/-- `strings.ToLower(<Kind>GroupKind)`, the prefix of the printed line. -/
def groupKind : PkgKind → String
  | .config => "configuration.pkg.crossplane.io"
  | .provider => "provider.pkg.crossplane.io"
  | .func => "function.pkg.crossplane.io"

/-- Outcomes of the effectful steps an update command performs. -/
structure Env where
  kubeConfig : Except Unit Unit
  newClient : Except Unit Unit
  getResult : Except KubeErr PkgObject
  parseRef : String → Except Unit String
  marshalOk : Bool
  patchResult : PkgObject → Except KubeErr PkgObject
  printResult : Except Unit Unit

/-- What one update command invocation did: the returned error (if any),
whether a not-found condition was downgraded to a warning, the object sent
as the patch body (if the command got that far), and the line printed on
success. -/
structure Outcome where
  result : Option UpdateError
  warned : Bool := false
  patchBody : Option PkgObject := none
  printed : Option String := none
  deriving DecidableEq, Repr

/-- The update command pipeline, translated statement by statement from
`update.go` (identical for the three kinds): get kubeconfig, build client,
fetch prior object, parse its package reference, rewrite `Spec.Package`
from the tag argument, marshal the whole object, patch, print. -/
def updateRun (k : PkgKind) (c : UpdateArgs) (env : Env) : Outcome :=
  match env.kubeConfig with
  | .error _ => { result := some .kubeConfig }
  | .ok _ =>
  match env.newClient with
  | .error _ => { result := some .kubeClient }
  | .ok _ =>
  match env.getResult with
  | .error e =>
    let w := warnIfNotFound e
    { result := errorsWrap w.1, warned := w.2 }
  | .ok prev =>
  match env.parseRef prev.specPackage with
  | .error _ => { result := some .cannotUpdate }
  | .ok repo =>
  let newPkg := if tagIsDigest c.Tag then digestName repo c.Tag else tagName repo c.Tag
  let next := { prev with specPackage := newPkg }
  if env.marshalOk then
    match env.patchResult next with
    | .error e =>
      let w := warnIfNotFound e
      { result := errorsWrap w.1, warned := w.2, patchBody := some next }
    | .ok res =>
      match env.printResult with
      | .error _ =>
        { result := some .printFailed, patchBody := some next
          printed := some (groupKind k ++ "/" ++ res.metadata.name ++ " updated") }
      | .ok _ =>
        { result := none, patchBody := some next
          printed := some (groupKind k ++ "/" ++ res.metadata.name ++ " updated") }
  else { result := some .cannotUpdate }

/-- A concrete stored object for witnesses. -/
def samplePrev : PkgObject :=
  { metadata := { name := "my-config", resourceVersion := "42"
                  labels := [("app", "demo")] }
    specPackage := "registry.example/pkg:v1"
    specRest := { revisionActivationPolicy := some "Automatic"
                  revisionHistoryLimit := some 3
                  packagePullPolicy := none
                  ignoreCrossplaneConstraints := some false } }

/-- A concrete environment in which every step of an update succeeds. -/
def sampleUpdateEnv : Env where
  kubeConfig := .ok ()
  newClient := .ok ()
  getResult := .ok samplePrev
  parseRef := fun _ => .ok "registry.example/pkg"
  marshalOk := true
  patchResult := fun o => .ok o
  printResult := .ok ()

/-- C9: in every update command (Configuration, Provider, Function), a
"not found" failure when fetching the prior object is downgraded to a
warning; the command returns no hard error. -/
theorem update_notFound_downgraded (k : PkgKind) (c : UpdateArgs) (env : Env)
    (h1 : env.kubeConfig = .ok ())
    (h2 : env.newClient = .ok ())
    (h3 : env.getResult = .error .notFound) :
    (updateRun k c env).result = none ∧ (updateRun k c env).warned = true := by
  simp [updateRun, h1, h2, h3, warnIfNotFound, errorsWrap]

/-- Witness for C9 at a concrete environment, for each of the three
commands. -/
theorem update_notFound_downgraded_witness :
    ({ sampleUpdateEnv with getResult := .error .notFound } : Env).kubeConfig = .ok () ∧
    ({ sampleUpdateEnv with getResult := .error .notFound } : Env).getResult =
      .error .notFound ∧
    (updateRun .config ⟨"my-config", "v2"⟩
        { sampleUpdateEnv with getResult := .error .notFound }).result = none ∧
    (updateRun .config ⟨"my-config", "v2"⟩
        { sampleUpdateEnv with getResult := .error .notFound }).warned = true ∧
    (updateRun .provider ⟨"my-provider", "v2"⟩
        { sampleUpdateEnv with getResult := .error .notFound }).result = none ∧
    (updateRun .func ⟨"my-func", "v2"⟩
        { sampleUpdateEnv with getResult := .error .notFound }).result = none := by
  have hc := update_notFound_downgraded .config ⟨"my-config", "v2"⟩
    { sampleUpdateEnv with getResult := .error .notFound } rfl rfl rfl
  have hp := update_notFound_downgraded .provider ⟨"my-provider", "v2"⟩
    { sampleUpdateEnv with getResult := .error .notFound } rfl rfl rfl
  have hf := update_notFound_downgraded .func ⟨"my-func", "v2"⟩
    { sampleUpdateEnv with getResult := .error .notFound } rfl rfl rfl
  exact ⟨rfl, rfl, hc.1, hc.2, hp.1, hf.1⟩

/-- C10: every successful update patches the stored object with the fetched
object unchanged except for `Spec.Package`, which becomes a
digest-qualified reference when the tag argument starts with `sha256` and a
tag-qualified reference otherwise; metadata and the rest of the spec are
carried over verbatim. -/
theorem update_patches_only_package (k : PkgKind) (c : UpdateArgs) (env : Env)
    (prev : PkgObject) (repo : String) (res : PkgObject)
    (h1 : env.kubeConfig = .ok ())
    (h2 : env.newClient = .ok ())
    (h3 : env.getResult = .ok prev)
    (h4 : env.parseRef prev.specPackage = .ok repo)
    (h5 : env.marshalOk = true)
    (h6 : env.patchResult
      { prev with specPackage :=
          if tagIsDigest c.Tag then digestName repo c.Tag else tagName repo c.Tag } =
      .ok res)
    (h7 : env.printResult = .ok ()) :
    (updateRun k c env).result = none ∧
    (updateRun k c env).patchBody =
      some ⟨prev.metadata,
        if "sha256".data.isPrefixOf c.Tag.data then digestName repo c.Tag
        else tagName repo c.Tag,
        prev.specRest⟩ := by
  simp only [updateRun, h1, h2, h3, h4, h5, if_true, h6, h7]
  exact ⟨trivial, by simp [tagIsDigest]⟩

/-- Witness for C10 at a concrete environment, with a plain tag and with a
digest tag. -/
theorem update_patches_only_package_witness :
    sampleUpdateEnv.getResult = .ok samplePrev ∧
    sampleUpdateEnv.parseRef samplePrev.specPackage = .ok "registry.example/pkg" ∧
    (updateRun .config ⟨"my-config", "v2"⟩ sampleUpdateEnv).result = none ∧
    (updateRun .config ⟨"my-config", "v2"⟩ sampleUpdateEnv).patchBody =
      some ⟨samplePrev.metadata, "registry.example/pkg:v2", samplePrev.specRest⟩ ∧
    (updateRun .provider ⟨"my-config", "sha256:abc"⟩ sampleUpdateEnv).patchBody =
      some ⟨samplePrev.metadata, "registry.example/pkg@sha256:abc",
        samplePrev.specRest⟩ := by
  have hv2 := update_patches_only_package .config ⟨"my-config", "v2"⟩ sampleUpdateEnv
    samplePrev "registry.example/pkg" _ rfl rfl rfl rfl rfl rfl rfl
  have hsha := update_patches_only_package .provider ⟨"my-config", "sha256:abc"⟩
    sampleUpdateEnv samplePrev "registry.example/pkg" _ rfl rfl rfl rfl rfl rfl rfl
  have hfalse : ("sha256".data.isPrefixOf "v2".data) = false := by decide
  have htrue : ("sha256".data.isPrefixOf "sha256:abc".data) = true := by decide
  refine ⟨rfl, rfl, hv2.1, ?_, ?_⟩
  · rw [hv2.2]
    simp [hfalse, digestName, tagName]
  · rw [hsha.2]
    simp [htrue, digestName, tagName]

end Update
